import Mathlib

/-!
Shallow embedding of the BlogSphere persistence layer and its two backends:
the flat JSON-file backend (`mainlocal.py`) and the PostgreSQL backend
(`main.py`).  Records are typed structures, a backend state is the four
record collections (plus, for the relational backend, the SERIAL counters),
and each route handler's store-relevant effect is a pure function on that
state.  Timestamps (`datetime.utcnow()`) are modelled as `Nat` values passed
in by the caller; Python's stable `list.sort` and SQL `ORDER BY` are
modelled with the stable `List.insertionSort` (any two stable sorts of the
same key agree, so this is extensionally Python's sort).
-/

/-- A stored User record (`users` table / `Users.json`). -/
structure UserRec where
  id : Nat
  username : String
  email : String
  password_hash : String
  is_admin : Bool
  created_at : Nat
deriving DecidableEq

/-- A stored Post record (`posts` table / `Posts.json`).  `images`/`videos`
are the decoded optional filename sequences; the relational backend's
JSON-encoding of them into a TEXT column (`json.dumps` on insert, the
`from_json` template filter on display) is abstracted away. -/
structure PostRec where
  id : Nat
  user_id : Nat
  title : String
  content : String
  images : Option (List String)
  videos : Option (List String)
  created_at : Nat
deriving DecidableEq

/-- A stored Like record (`likes` table / `likes.json`). -/
structure LikeRec where
  id : Nat
  user_id : Nat
  post_id : Nat
  created_at : Nat
deriving DecidableEq

/-- A stored Comment record (`comments` table / `Comments.json`). -/
structure CommentRec where
  id : Nat
  user_id : Nat
  post_id : Nat
  content : String
  created_at : Nat
deriving DecidableEq

/-- The flat-file backend's whole store: the contents of the four JSON
files of `mainlocal.py`. -/
structure Store where
  users : List UserRec
  posts : List PostRec
  likes : List LikeRec
  comments : List CommentRec
deriving DecidableEq

/-- The relational backend's whole store: the four tables of `main.py`
together with the next value of each table's SERIAL id sequence (a
PostgreSQL sequence is not reset by deletes). -/
structure RelStore where
  users : List UserRec
  posts : List PostRec
  likes : List LikeRec
  comments : List CommentRec
  user_seq : Nat
  post_seq : Nat
  like_seq : Nat
  comment_seq : Nat
deriving DecidableEq

/-- Model of werkzeug's `generate_password_hash`: an opaque injective
digest (salting is irrelevant to the contract proved here). -/
def generate_password_hash (password : String) : String :=
  "pbkdf2:" ++ password

/-- Model of werkzeug's `check_password_hash`: true exactly when the
stored digest is the digest of the offered password. -/
def check_password_hash (hash password : String) : Bool :=
  hash == generate_password_hash password

/-- The flat-file backend's `get_next_id`: 1 for an empty collection,
otherwise the maximum stored id plus one. -/
def get_next_id (ids : List Nat) : Nat :=
  if ids.isEmpty then 1 else ids.foldl (fun a b => max a b) 0 + 1

/-- Result of the backing-file read underlying `load_json_file` in
`mainlocal.py`: the file is absent, unreadable or undecodable (the
`except` branch), or holds a decoded record list. -/
inductive LoadResult (α : Type) where
  | missing
  | ioFault
  | decodeFault
  | ok (records : List α)
deriving DecidableEq

/-- True when the backing read hit an I/O or decode fault (a merely
missing file is the normal first-start condition, not a fault). -/
def LoadResult.isFault {α : Type} : LoadResult α → Bool
  | .ioFault => true
  | .decodeFault => true
  | _ => false

/-- `load_json_file` of `mainlocal.py`: a missing file yields `[]`, a read
or decode fault is caught, logged and also yields `[]`; only a successful
read yields the stored records. -/
def load_json_file {α : Type} (r : LoadResult α) : List α :=
  match r with
  | .missing => []
  | .ioFault => []
  | .decodeFault => []
  | .ok records => records

/-- Outcome of `register` as the caller observes it: success, or the
flash message naming the duplicate field. -/
inductive RegisterResult where
  | ok
  | duplicateUsername
  | duplicateEmail
  | storeError
deriving DecidableEq

/-- True when registration failed on a uniqueness (DuplicateKey) check. -/
def RegisterResult.isDuplicateKey : RegisterResult → Bool
  | .duplicateUsername => true
  | .duplicateEmail => true
  | _ => false

/-- Outcome of a login attempt: the logged-in identity, or the single
indistinct failure (`flash('Invalid username or password')`). -/
inductive AuthResult where
  | identity (id : Nat) (username : String) (is_admin : Bool)
  | invalid
deriving DecidableEq

/-- A post as displayed by the index page: `get_posts` in both backends. -/
structure PostView where
  id : Nat
  user_id : Nat
  title : String
  content : String
  images : Option (List String)
  videos : Option (List String)
  created_at : Nat
  author_username : String
  like_count : Nat
  comment_count : Nat
deriving DecidableEq

/-- A comment as displayed on the detail page, annotated with its
author's username. -/
structure CommentView where
  id : Nat
  user_id : Nat
  content : String
  created_at : Nat
  author_username : String
deriving DecidableEq

/-- The post dict built by `post_detail` (author username and signup
date included). -/
structure DetailPost where
  id : Nat
  user_id : Nat
  title : String
  content : String
  images : Option (List String)
  videos : Option (List String)
  created_at : Nat
  author_username : String
  author_created_at : Option Nat
  like_count : Nat
  comment_count : Nat
deriving DecidableEq

/-- Outcome of `post_detail`: the not-found flash/redirect, or the post
with its ordered annotated comments. -/
inductive DetailResult where
  | notFound
  | found (post : DetailPost) (comments : List CommentView)
deriving DecidableEq

/-! ## Flat-file backend: the store operations of `mainlocal.py` -/

/-- `register` route of `mainlocal.py` (POST branch): reject an existing
username, then an existing email, else append a new user with a fresh id,
hashed password and `is_admin=False`. -/
def register_local (s : Store) (username email password : String) (now : Nat) :
    RegisterResult × Store :=
  if s.users.any (fun u => u.username == username) then
    (.duplicateUsername, s)
  else if s.users.any (fun u => u.email == email) then
    (.duplicateEmail, s)
  else
    let new_user : UserRec :=
      { id := get_next_id (s.users.map (fun u => u.id)),
        username := username,
        email := email,
        password_hash := generate_password_hash password,
        is_admin := false,
        created_at := now }
    (.ok, { s with users := s.users ++ [new_user] })

/-- `login` route of `mainlocal.py` (POST branch): first user with the
offered username, logged in when the password hash checks; otherwise the
one invalid-credentials outcome. -/
def login_local (s : Store) (username password : String) : AuthResult :=
  let user_data := s.users.find? (fun u => u.username == username)
  match user_data with
  | some u =>
      if check_password_hash u.password_hash password then
        .identity u.id u.username u.is_admin
      else
        .invalid
  | none => .invalid

/-- `create_post` route of `mainlocal.py`: append a new post with a fresh
id; empty upload lists are stored as null (`images if images else None`). -/
def create_post_local (s : Store) (uid : Nat) (title content : String)
    (images videos : List String) (now : Nat) : Store :=
  let new_post : PostRec :=
    { id := get_next_id (s.posts.map (fun p => p.id)),
      user_id := uid,
      title := title,
      content := content,
      images := if images.isEmpty then none else some images,
      videos := if videos.isEmpty then none else some videos,
      created_at := now }
  { s with posts := s.posts ++ [new_post] }

/-- `like_post` route of `mainlocal.py`: when a like by this user on this
post exists, drop every like of that (user, post) pair; otherwise append a
fresh like.  The returned Bool is the conceptual `liked` outcome (presence
after the toggle). -/
def like_post_local (s : Store) (uid pid now : Nat) : Bool × Store :=
  let existing_like := s.likes.find? (fun l => l.user_id == uid && l.post_id == pid)
  match existing_like with
  | some _ =>
      (false, { s with likes := s.likes.filter (fun l => !(l.user_id == uid && l.post_id == pid)) })
  | none =>
      let new_like : LikeRec :=
        { id := get_next_id (s.likes.map (fun l => l.id)),
          user_id := uid,
          post_id := pid,
          created_at := now }
      (true, { s with likes := s.likes ++ [new_like] })

/-- `add_comment` route of `mainlocal.py`: append a new comment with the
verbatim content. -/
def add_comment_local (s : Store) (uid pid : Nat) (content : String) (now : Nat) : Store :=
  let new_comment : CommentRec :=
    { id := get_next_id (s.comments.map (fun c => c.id)),
      user_id := uid,
      post_id := pid,
      content := content,
      created_at := now }
  { s with comments := s.comments ++ [new_comment] }

/-- `admin_delete_post` route of `mainlocal.py`: rewrite the likes file
without this post's likes, then the comments file without its comments,
then the posts file without the post itself. -/
def admin_delete_post_local (s : Store) (pid : Nat) : Store :=
  let s1 := { s with likes := s.likes.filter (fun l => l.post_id != pid) }
  let s2 := { s1 with comments := s1.comments.filter (fun c => c.post_id != pid) }
  { s2 with posts := s2.posts.filter (fun p => p.id != pid) }

/-- `get_posts` of `mainlocal.py`: enrich every post (author username via
the id-keyed dict, whose later entries win on duplicate ids, defaulting to
"Unknown"; like and comment counts by scan) and stable-sort newest first. -/
def get_posts_local (s : Store) : List PostView :=
  let enriched := s.posts.map (fun p =>
    { id := p.id,
      user_id := p.user_id,
      title := p.title,
      content := p.content,
      images := p.images,
      videos := p.videos,
      created_at := p.created_at,
      author_username :=
        match s.users.reverse.find? (fun u => u.id == p.user_id) with
        | some u => u.username
        | none => "Unknown",
      like_count := (s.likes.filter (fun l => l.post_id == p.id)).length,
      comment_count := (s.comments.filter (fun c => c.post_id == p.id)).length
      : PostView })
  List.insertionSort (fun a b => b.created_at ≤ a.created_at) enriched

/-- `post_detail` route of `mainlocal.py`: first post with the requested
id or the not-found outcome; author annotated with an "Unknown" default;
this post's comments annotated the same way and stable-sorted by
`created_at` ascending. -/
def post_detail_local (s : Store) (pid : Nat) : DetailResult :=
  match s.posts.find? (fun p => p.id == pid) with
  | none => .notFound
  | some post_data =>
      let author := s.users.find? (fun u => u.id == post_data.user_id)
      let post : DetailPost :=
        { id := post_data.id,
          user_id := post_data.user_id,
          title := post_data.title,
          content := post_data.content,
          images := post_data.images,
          videos := post_data.videos,
          created_at := post_data.created_at,
          author_username :=
            match author with
            | some u => u.username
            | none => "Unknown",
          author_created_at :=
            match author with
            | some u => some u.created_at
            | none => none,
          like_count := (s.likes.filter (fun l => l.post_id == pid)).length,
          comment_count := (s.comments.filter (fun c => c.post_id == pid)).length }
      let post_comments := (s.comments.filter (fun c => c.post_id == pid)).map (fun c =>
        { id := c.id,
          user_id := c.user_id,
          content := c.content,
          created_at := c.created_at,
          author_username :=
            match s.users.find? (fun u => u.id == c.user_id) with
            | some u => u.username
            | none => "Unknown"
          : CommentView })
      .found post (List.insertionSort (fun a b => a.created_at ≤ b.created_at) post_comments)

/-- `initialize_data` of `mainlocal.py`: when no user named "admin"
exists, append the seeded admin account (fixed default password,
`is_admin=True`). -/
def seed_data_local (s : Store) (now : Nat) : Store :=
  if s.users.any (fun u => u.username == "admin") then s
  else
    let admin_user : UserRec :=
      { id := get_next_id (s.users.map (fun u => u.id)),
        username := "admin",
        email := "admin@example.com",
        password_hash := generate_password_hash "admin123",
        is_admin := true,
        created_at := now }
    { s with users := s.users ++ [admin_user] }

/-! ## Relational backend: the store operations of `main.py`

The SQL statements are interpreted over the table lists.  `INSERT` honours
the schema's uniqueness constraints of `create_tables` (`username` and
`email` UNIQUE on `users`, `UNIQUE(user_id, post_id)` on `likes`): a
violating insert raises, modelled as `none`.  Foreign-key existence checks
on insert are not modelled (every route inserts `current_user.id`, a row
that exists), but `ON DELETE CASCADE` plays no role either since no route
deletes users or uses anything but the explicit cascading deletes. -/

/-- `INSERT INTO users` under the UNIQUE constraints on username and
email; ids come from the SERIAL sequence. -/
def insert_user_sql (s : RelStore) (username email password_hash : String)
    (is_admin : Bool) (now : Nat) : Option RelStore :=
  if s.users.any (fun u => u.username == username) then none
  else if s.users.any (fun u => u.email == email) then none
  else
    some { s with
      users := s.users ++ [{ id := s.user_seq, username := username, email := email,
                             password_hash := password_hash, is_admin := is_admin,
                             created_at := now }],
      user_seq := s.user_seq + 1 }

/-- `INSERT INTO likes` under `UNIQUE(user_id, post_id)`. -/
def insert_like_sql (s : RelStore) (uid pid now : Nat) : Option RelStore :=
  if s.likes.any (fun l => l.user_id == uid && l.post_id == pid) then none
  else
    some { s with
      likes := s.likes ++ [{ id := s.like_seq, user_id := uid, post_id := pid,
                             created_at := now }],
      like_seq := s.like_seq + 1 }

/-- `register` route of `main.py` (POST branch): SELECT-check username,
then email, then INSERT the new user with `is_admin=False`.  The insert
cannot hit a constraint after the two checks in a sequential run; were it
to raise, the route's except branch reports a store error. -/
def register_sql (s : RelStore) (username email password : String) (now : Nat) :
    RegisterResult × RelStore :=
  if s.users.any (fun u => u.username == username) then
    (.duplicateUsername, s)
  else if s.users.any (fun u => u.email == email) then
    (.duplicateEmail, s)
  else
    match insert_user_sql s username email (generate_password_hash password) false now with
    | some s' => (.ok, s')
    | none => (.storeError, s)

/-- `login` route of `main.py` (POST branch): `WHERE username = %s` with
`fetchone` is the first matching row; same check as the flat-file login. -/
def login_sql (s : RelStore) (username password : String) : AuthResult :=
  match s.users.find? (fun u => u.username == username) with
  | some u =>
      if check_password_hash u.password_hash password then
        .identity u.id u.username u.is_admin
      else
        .invalid
  | none => .invalid

/-- `create_post` route of `main.py`: INSERT with NULL for empty upload
lists (`json.dumps(images) if images else None`, decoding abstracted). -/
def create_post_sql (s : RelStore) (uid : Nat) (title content : String)
    (images videos : List String) (now : Nat) : RelStore :=
  { s with
    posts := s.posts ++ [{ id := s.post_seq, user_id := uid, title := title,
                           content := content,
                           images := if images.isEmpty then none else some images,
                           videos := if videos.isEmpty then none else some videos,
                           created_at := now }],
    post_seq := s.post_seq + 1 }

/-- `like_post` route of `main.py`: SELECT for an existing like, DELETE
every row of the pair when found (`liked = False`), else INSERT a new like
(`liked = True`).  A constraint violation on the insert would raise into
the route's 500 branch, modelled as `none`. -/
def like_post_sql (s : RelStore) (uid pid now : Nat) : Option (Bool × RelStore) :=
  let existing_like := s.likes.find? (fun l => l.user_id == uid && l.post_id == pid)
  match existing_like with
  | some _ =>
      some (false, { s with likes := s.likes.filter (fun l => !(l.user_id == uid && l.post_id == pid)) })
  | none =>
      match insert_like_sql s uid pid now with
      | some s' => some (true, s')
      | none => none

/-- `add_comment` route of `main.py`: INSERT the verbatim comment. -/
def add_comment_sql (s : RelStore) (uid pid : Nat) (content : String) (now : Nat) : RelStore :=
  { s with
    comments := s.comments ++ [{ id := s.comment_seq, user_id := uid, post_id := pid,
                                 content := content, created_at := now }],
    comment_seq := s.comment_seq + 1 }

/-- `admin_delete_post` route of `main.py`: DELETE the likes of the post,
then its comments, then the post row, in one commit. -/
def admin_delete_post_sql (s : RelStore) (pid : Nat) : RelStore :=
  let s1 := { s with likes := s.likes.filter (fun l => l.post_id != pid) }
  let s2 := { s1 with comments := s1.comments.filter (fun c => c.post_id != pid) }
  { s2 with posts := s2.posts.filter (fun p => p.id != pid) }

/-- `get_posts` of `main.py`: the posts-users inner join with correlated
like/comment counts, `ORDER BY p.created_at DESC`.  A post whose author
row is absent produces no row.  SQL fixes no tie order; the model uses the
stable sort (every theorem sensitive to ties assumes distinct keys). -/
def get_posts_sql (s : RelStore) : List PostView :=
  let rows := s.posts.flatMap (fun p =>
    (s.users.filter (fun u => u.id == p.user_id)).map (fun u =>
      { id := p.id,
        user_id := p.user_id,
        title := p.title,
        content := p.content,
        images := p.images,
        videos := p.videos,
        created_at := p.created_at,
        author_username := u.username,
        like_count := (s.likes.filter (fun l => l.post_id == p.id)).length,
        comment_count := (s.comments.filter (fun c => c.post_id == p.id)).length
        : PostView }))
  List.insertionSort (fun a b => b.created_at ≤ a.created_at) rows

/-- `post_detail` route of `main.py`: the joined post row (`fetchone`,
absent when the post or its author row is absent), then the post's
comments joined to their authors, `ORDER BY c.created_at ASC`. -/
def post_detail_sql (s : RelStore) (pid : Nat) : DetailResult :=
  match (((s.posts.filter (fun p => p.id == pid)).flatMap (fun p =>
      (s.users.filter (fun u => u.id == p.user_id)).map (fun u => (p, u)))).head?) with
  | none => .notFound
  | some (p, u) =>
      let post : DetailPost :=
        { id := p.id,
          user_id := p.user_id,
          title := p.title,
          content := p.content,
          images := p.images,
          videos := p.videos,
          created_at := p.created_at,
          author_username := u.username,
          author_created_at := some u.created_at,
          like_count := (s.likes.filter (fun l => l.post_id == p.id)).length,
          comment_count := (s.comments.filter (fun c => c.post_id == p.id)).length }
      let comment_rows := (s.comments.filter (fun c => c.post_id == pid)).flatMap (fun c =>
        (s.users.filter (fun u2 => u2.id == c.user_id)).map (fun u2 =>
          { id := c.id,
            user_id := c.user_id,
            content := c.content,
            created_at := c.created_at,
            author_username := u2.username
            : CommentView }))
      .found post (List.insertionSort (fun a b => a.created_at ≤ b.created_at) comment_rows)

/-- `initialize_database` of `main.py`: when no user named "admin" exists,
INSERT the seeded admin account; a raising insert aborts startup (`none`). -/
def seed_database_sql (s : RelStore) (now : Nat) : Option RelStore :=
  if s.users.any (fun u => u.username == "admin") then some s
  else insert_user_sql s "admin" "admin@example.com" (generate_password_hash "admin123") true now

/-- `get_posts` of `main.py` as the route sees it: a connection or query
fault is caught and returned as the empty list. -/
def get_posts_sql_run (db : Option RelStore) : List PostView :=
  match db with
  | none => []
  | some s => get_posts_sql s

/-! ## Exposed-operation sequences and reachable states -/

/-- One exposed store operation (the Request Handler surface minus pure
reads); `login` touches no store state. -/
inductive Op where
  | register (username email password : String) (now : Nat)
  | login (username password : String)
  | create_post (uid : Nat) (title content : String) (images videos : List String) (now : Nat)
  | toggle_like (uid pid now : Nat)
  | add_comment (uid pid : Nat) (content : String) (now : Nat)
  | delete_post (pid : Nat)

/-- Effect of one exposed operation on the flat-file store. -/
def applyOp_local (s : Store) : Op → Store
  | .register username email password now => (register_local s username email password now).2
  | .login _ _ => s
  | .create_post uid title content images videos now =>
      create_post_local s uid title content images videos now
  | .toggle_like uid pid now => (like_post_local s uid pid now).2
  | .add_comment uid pid content now => add_comment_local s uid pid content now
  | .delete_post pid => admin_delete_post_local s pid

/-- Effect of one exposed operation on the relational store (a raising
`toggle_like` leaves the store as the aborted transaction left it:
unchanged). -/
def applyOp_sql (s : RelStore) : Op → RelStore
  | .register username email password now => (register_sql s username email password now).2
  | .login _ _ => s
  | .create_post uid title content images videos now =>
      create_post_sql s uid title content images videos now
  | .toggle_like uid pid now =>
      match like_post_sql s uid pid now with
      | some (_, s') => s'
      | none => s
  | .add_comment uid pid content now => add_comment_sql s uid pid content now
  | .delete_post pid => admin_delete_post_sql s pid

/-- Run a sequence of exposed operations on the flat-file store. -/
def run_local (s : Store) (ops : List Op) : Store :=
  ops.foldl applyOp_local s

/-- Run a sequence of exposed operations on the relational store. -/
def run_sql (s : RelStore) (ops : List Op) : RelStore :=
  ops.foldl applyOp_sql s

/-- The flat-file store as `initialize_data` first finds it: four empty
files. -/
def initStore : Store :=
  { users := [], posts := [], likes := [], comments := [] }

/-- The relational store as `create_tables` first creates it: four empty
tables, each SERIAL sequence at 1. -/
def initRelStore : RelStore :=
  { users := [], posts := [], likes := [], comments := [],
    user_seq := 1, post_seq := 1, like_seq := 1, comment_seq := 1 }

/-- Number of stored likes of one (user, post) pair. -/
def pair_count (likes : List LikeRec) (uid pid : Nat) : Nat :=
  (likes.filter (fun l => l.user_id == uid && l.post_id == pid)).length

/-- Presence of a stored like of one (user, post) pair. -/
def like_exists (likes : List LikeRec) (uid pid : Nat) : Bool :=
  likes.any (fun l => l.user_id == uid && l.post_id == pid)

/-! ## Helper lemmas: effects on the likes collection -/

theorem register_local_likes (s : Store) (username email password : String) (now : Nat) :
    ((register_local s username email password now).2).likes = s.likes := by
  unfold register_local
  split
  · rfl
  · split
    · rfl
    · rfl

theorem register_sql_likes (s : RelStore) (username email password : String) (now : Nat) :
    ((register_sql s username email password now).2).likes = s.likes := by
  unfold register_sql insert_user_sql
  split
  · rfl
  · split
    · rfl
    · split
      · rename_i s' heq
        cases heq
        rfl
      · rfl

theorem like_post_local_likes_some (s : Store) (uid pid now : Nat)
    (hfind : s.likes.find? (fun l => l.user_id == uid && l.post_id == pid) = some x) :
    like_post_local s uid pid now =
      (false, { s with likes := s.likes.filter (fun l => !(l.user_id == uid && l.post_id == pid)) }) := by
  unfold like_post_local
  rw [hfind]

theorem like_post_local_likes_none (s : Store) (uid pid now : Nat)
    (hfind : s.likes.find? (fun l => l.user_id == uid && l.post_id == pid) = none) :
    like_post_local s uid pid now =
      (true, { s with likes := s.likes ++
        [{ id := get_next_id (s.likes.map (fun l => l.id)),
           user_id := uid, post_id := pid, created_at := now }] }) := by
  unfold like_post_local
  rw [hfind]

theorem like_post_sql_likes_some (s : RelStore) (uid pid now : Nat)
    (hfind : s.likes.find? (fun l => l.user_id == uid && l.post_id == pid) = some x) :
    like_post_sql s uid pid now =
      some (false, { s with likes := s.likes.filter (fun l => !(l.user_id == uid && l.post_id == pid)) }) := by
  unfold like_post_sql
  rw [hfind]

theorem like_post_sql_likes_none (s : RelStore) (uid pid now : Nat)
    (hfind : s.likes.find? (fun l => l.user_id == uid && l.post_id == pid) = none) :
    like_post_sql s uid pid now =
      some (true, { s with
        likes := s.likes ++ [{ id := s.like_seq, user_id := uid, post_id := pid, created_at := now }],
        like_seq := s.like_seq + 1 }) := by
  have hany : s.likes.any (fun l => l.user_id == uid && l.post_id == pid) = false :=
    List.any_eq_false.mpr (List.find?_eq_none.mp hfind)
  unfold like_post_sql insert_like_sql
  rw [hfind, if_neg (by simp [hany])]

theorem pair_count_filter_le (likes : List LikeRec) (q : LikeRec → Bool) (uid pid : Nat) :
    pair_count (likes.filter q) uid pid ≤ pair_count likes uid pid := by
  unfold pair_count
  exact (List.Sublist.filter _ (List.filter_sublist likes)).length_le

theorem pair_count_remove (likes : List LikeRec) (uid pid : Nat) :
    pair_count (likes.filter (fun l => !(l.user_id == uid && l.post_id == pid))) uid pid = 0 := by
  unfold pair_count
  rw [List.filter_filter]
  simp

theorem pair_count_append_one (likes : List LikeRec) (nl : LikeRec) (uid pid : Nat) :
    pair_count (likes ++ [nl]) uid pid =
      pair_count likes uid pid + (if nl.user_id == uid && nl.post_id == pid then 1 else 0) := by
  unfold pair_count
  rw [List.filter_append]
  cases h : (nl.user_id == uid && nl.post_id == pid) <;> simp [List.filter, h]

theorem pair_count_zero_of_find?_none (likes : List LikeRec) (uid pid : Nat)
    (h : likes.find? (fun l => l.user_id == uid && l.post_id == pid) = none) :
    pair_count likes uid pid = 0 := by
  unfold pair_count
  rw [List.filter_eq_nil_iff.mpr (List.find?_eq_none.mp h)]
  rfl

/-- The uniqueness invariant for the like collection: at most one stored
Like per (user, post) pair. -/
def LikeInv (likes : List LikeRec) : Prop :=
  ∀ uid pid, pair_count likes uid pid ≤ 1

theorem likeInv_of_filter (likes : List LikeRec) (q : LikeRec → Bool) (h : LikeInv likes) :
    LikeInv (likes.filter q) :=
  fun uid pid => le_trans (pair_count_filter_le likes q uid pid) (h uid pid)

theorem likeInv_toggle_append (likes : List LikeRec) (uid pid : Nat) (nl : LikeRec)
    (hu : nl.user_id = uid) (hp : nl.post_id = pid)
    (hfind : likes.find? (fun l => l.user_id == uid && l.post_id == pid) = none)
    (h : LikeInv likes) : LikeInv (likes ++ [nl]) := by
  intro a b
  rw [pair_count_append_one]
  by_cases hab : uid = a ∧ pid = b
  · obtain ⟨rfl, rfl⟩ := hab
    rw [pair_count_zero_of_find?_none likes uid pid hfind]
    simp [hu, hp]
  · have hmatch : (nl.user_id == a && nl.post_id == b) = false := by
      rcases not_and_or.mp hab with hna | hnb
      · simp [hu, hna]
      · simp [hp, hnb]
    rw [hmatch]
    simpa using h a b

theorem seed_data_local_likes (s : Store) (now : Nat) :
    (seed_data_local s now).likes = s.likes := by
  unfold seed_data_local
  split
  · rfl
  · rfl

theorem seed_database_sql_likes (s s' : RelStore) (now : Nat)
    (h : seed_database_sql s now = some s') : s'.likes = s.likes := by
  unfold seed_database_sql insert_user_sql at h
  split at h
  · cases h
    rfl
  · split at h
    · cases h
    · cases h
      rfl

theorem like_exists_remove (likes : List LikeRec) (uid pid : Nat) :
    like_exists (likes.filter (fun l => !(l.user_id == uid && l.post_id == pid))) uid pid = false := by
  unfold like_exists
  refine List.any_eq_false.mpr ?_
  intro x hx
  have hx2 := (List.mem_filter.mp hx).2
  simp only [Bool.not_eq_true'] at hx2
  simp [hx2]

theorem like_exists_append_match (likes : List LikeRec) (nl : LikeRec) (uid pid : Nat)
    (hu : nl.user_id = uid) (hp : nl.post_id = pid) :
    like_exists (likes ++ [nl]) uid pid = true := by
  unfold like_exists
  exact List.any_eq_true.mpr ⟨nl, by simp, by simp [hu, hp]⟩

theorem like_exists_true_of_find?_some (likes : List LikeRec) (uid pid : Nat) (x : LikeRec)
    (hfind : likes.find? (fun l => l.user_id == uid && l.post_id == pid) = some x) :
    like_exists likes uid pid = true := by
  have hmem := List.mem_of_find?_eq_some hfind
  have hp := List.find?_some hfind
  exact List.any_eq_true.mpr ⟨x, hmem, hp⟩

theorem like_exists_false_of_find?_none (likes : List LikeRec) (uid pid : Nat)
    (hfind : likes.find? (fun l => l.user_id == uid && l.post_id == pid) = none) :
    like_exists likes uid pid = false :=
  List.any_eq_false.mpr (List.find?_eq_none.mp hfind)

theorem likeInv_applyOp_local (s : Store) (op : Op) (h : LikeInv s.likes) :
    LikeInv (applyOp_local s op).likes := by
  cases op with
  | register username email password now =>
      simpa only [applyOp_local, register_local_likes] using h
  | login username password =>
      simpa only [applyOp_local] using h
  | create_post uid title content images videos now =>
      simpa only [applyOp_local, create_post_local] using h
  | toggle_like uid pid now =>
      cases hfind : s.likes.find? (fun l => l.user_id == uid && l.post_id == pid) with
      | some x =>
          simp only [applyOp_local, like_post_local_likes_some s uid pid now hfind]
          exact likeInv_of_filter _ _ h
      | none =>
          simp only [applyOp_local, like_post_local_likes_none s uid pid now hfind]
          exact likeInv_toggle_append _ _ _ _ rfl rfl hfind h
  | add_comment uid pid content now =>
      simpa only [applyOp_local, add_comment_local] using h
  | delete_post pid =>
      simpa only [applyOp_local, admin_delete_post_local] using
        likeInv_of_filter s.likes (fun l => l.post_id != pid) h

theorem likeInv_applyOp_sql (s : RelStore) (op : Op) (h : LikeInv s.likes) :
    LikeInv (applyOp_sql s op).likes := by
  cases op with
  | register username email password now =>
      simpa only [applyOp_sql, register_sql_likes] using h
  | login username password =>
      simpa only [applyOp_sql] using h
  | create_post uid title content images videos now =>
      simpa only [applyOp_sql, create_post_sql] using h
  | toggle_like uid pid now =>
      cases hfind : s.likes.find? (fun l => l.user_id == uid && l.post_id == pid) with
      | some x =>
          simp only [applyOp_sql, like_post_sql_likes_some s uid pid now hfind]
          exact likeInv_of_filter _ _ h
      | none =>
          simp only [applyOp_sql, like_post_sql_likes_none s uid pid now hfind]
          exact likeInv_toggle_append _ _ _ _ rfl rfl hfind h
  | add_comment uid pid content now =>
      simpa only [applyOp_sql, add_comment_sql] using h
  | delete_post pid =>
      simpa only [applyOp_sql, admin_delete_post_sql] using
        likeInv_of_filter s.likes (fun l => l.post_id != pid) h

theorem likeInv_run_local (ops : List Op) :
    ∀ (s : Store), LikeInv s.likes → LikeInv (run_local s ops).likes := by
  induction ops with
  | nil =>
      intro s h
      simpa only [run_local, List.foldl_nil] using h
  | cons op rest ih =>
      intro s h
      rw [run_local, List.foldl_cons]
      exact ih _ (likeInv_applyOp_local s op h)

theorem likeInv_run_sql (ops : List Op) :
    ∀ (s : RelStore), LikeInv s.likes → LikeInv (run_sql s ops).likes := by
  induction ops with
  | nil =>
      intro s h
      simpa only [run_sql, List.foldl_nil] using h
  | cons op rest ih =>
      intro s h
      rw [run_sql, List.foldl_cons]
      exact ih _ (likeInv_applyOp_sql s op h)

theorem likeInv_nil : LikeInv [] := by
  intro uid pid
  simp [pair_count]

theorem like_post_local_fst (s : Store) (uid pid now : Nat) :
    (like_post_local s uid pid now).1 = !(like_exists s.likes uid pid) := by
  cases hfind : s.likes.find? (fun l => l.user_id == uid && l.post_id == pid) with
  | some x =>
      rw [like_post_local_likes_some s uid pid now hfind,
        like_exists_true_of_find?_some s.likes uid pid x hfind]
      rfl
  | none =>
      rw [like_post_local_likes_none s uid pid now hfind,
        like_exists_false_of_find?_none s.likes uid pid hfind]
      rfl

theorem like_exists_after_toggle_local (s : Store) (uid pid now : Nat) :
    like_exists ((like_post_local s uid pid now).2).likes uid pid
      = !(like_exists s.likes uid pid) := by
  cases hfind : s.likes.find? (fun l => l.user_id == uid && l.post_id == pid) with
  | some x =>
      rw [like_post_local_likes_some s uid pid now hfind,
        like_exists_true_of_find?_some s.likes uid pid x hfind]
      exact like_exists_remove s.likes uid pid
  | none =>
      rw [like_post_local_likes_none s uid pid now hfind,
        like_exists_false_of_find?_none s.likes uid pid hfind]
      exact like_exists_append_match s.likes _ uid pid rfl rfl

theorem toggle_alternates_local (s : Store) (uid pid t1 t2 : Nat) :
    (like_post_local (like_post_local s uid pid t1).2 uid pid t2).1
      = !(like_post_local s uid pid t1).1 := by
  rw [like_post_local_fst, like_exists_after_toggle_local, like_post_local_fst]

theorem like_post_local_spec (s : Store) (uid pid now : Nat) :
    (like_post_local s uid pid now).1 = !(like_exists s.likes uid pid) ∧
    like_exists ((like_post_local s uid pid now).2).likes uid pid
      = !(like_exists s.likes uid pid) ∧
    (like_exists s.likes uid pid = true →
      ((like_post_local s uid pid now).2).likes
        = s.likes.filter (fun l => !(l.user_id == uid && l.post_id == pid))) ∧
    (like_exists s.likes uid pid = false →
      ∃ nl : LikeRec, nl.user_id = uid ∧ nl.post_id = pid ∧
        ((like_post_local s uid pid now).2).likes = s.likes ++ [nl]) := by
  refine ⟨like_post_local_fst s uid pid now, like_exists_after_toggle_local s uid pid now, ?_, ?_⟩
  · intro htrue
    cases hfind : s.likes.find? (fun l => l.user_id == uid && l.post_id == pid) with
    | some x => rw [like_post_local_likes_some s uid pid now hfind]
    | none =>
        rw [like_exists_false_of_find?_none s.likes uid pid hfind] at htrue
        cases htrue
  · intro hfalse
    cases hfind : s.likes.find? (fun l => l.user_id == uid && l.post_id == pid) with
    | some x =>
        rw [like_exists_true_of_find?_some s.likes uid pid x hfind] at hfalse
        cases hfalse
    | none =>
        rw [like_post_local_likes_none s uid pid now hfind]
        exact ⟨_, rfl, rfl, rfl⟩

theorem like_post_sql_spec (s : RelStore) (uid pid now : Nat) :
    ∃ s' : RelStore,
      like_post_sql s uid pid now = some (!(like_exists s.likes uid pid), s') ∧
      like_exists s'.likes uid pid = !(like_exists s.likes uid pid) ∧
      (like_exists s.likes uid pid = true →
        s'.likes = s.likes.filter (fun l => !(l.user_id == uid && l.post_id == pid))) ∧
      (like_exists s.likes uid pid = false →
        ∃ nl : LikeRec, nl.user_id = uid ∧ nl.post_id = pid ∧ s'.likes = s.likes ++ [nl]) := by
  cases hfind : s.likes.find? (fun l => l.user_id == uid && l.post_id == pid) with
  | some x =>
      have hex := like_exists_true_of_find?_some s.likes uid pid x hfind
      refine ⟨{ s with likes := s.likes.filter (fun l => !(l.user_id == uid && l.post_id == pid)) },
        ?_, ?_, ?_, ?_⟩
      · rw [like_post_sql_likes_some s uid pid now hfind, hex]
        rfl
      · rw [hex]
        exact like_exists_remove s.likes uid pid
      · intro _
        rfl
      · intro hfalse
        rw [hex] at hfalse
        cases hfalse
  | none =>
      have hex := like_exists_false_of_find?_none s.likes uid pid hfind
      refine ⟨{ s with
          likes := s.likes ++ [{ id := s.like_seq, user_id := uid, post_id := pid, created_at := now }],
          like_seq := s.like_seq + 1 },
        ?_, ?_, ?_, ?_⟩
      · rw [like_post_sql_likes_none s uid pid now hfind, hex]
        rfl
      · rw [hex]
        exact like_exists_append_match s.likes _ uid pid rfl rfl
      · intro htrue
        rw [hex] at htrue
        cases htrue
      · intro _
        exact ⟨_, rfl, rfl, rfl⟩

theorem toggle_alternates_sql (r : RelStore) (uid pid t1 t2 : Nat) (b1 : Bool) (r1 : RelStore)
    (h : like_post_sql r uid pid t1 = some (b1, r1)) :
    ∃ r2, like_post_sql r1 uid pid t2 = some (!b1, r2) := by
  obtain ⟨s', heq, hafter, _, _⟩ := like_post_sql_spec r uid pid t1
  obtain ⟨r2, heq2, _, _, _⟩ := like_post_sql_spec s' uid pid t2
  rw [heq] at h
  injection h with h1
  injection h1 with hb hr
  refine ⟨r2, ?_⟩
  rw [← hr, heq2, hafter, ← hb]

/-- C1: on every store state reachable from startup (seed, then any
sequence of exposed operations) the stored Like count of any
(user, post) pair is at most one, in both backends; and from any state,
two successive `toggle_like` calls of the same user on the same post
return opposite `liked` values (so repeated toggles alternate
true, false, true, …). -/
theorem claim1_like_uniqueness_and_alternation :
    (∀ (now : Nat) (ops : List Op) (uid pid : Nat),
        pair_count (run_local (seed_data_local initStore now) ops).likes uid pid ≤ 1) ∧
    (∀ (now : Nat) (s0 : RelStore) (ops : List Op) (uid pid : Nat),
        seed_database_sql initRelStore now = some s0 →
        pair_count (run_sql s0 ops).likes uid pid ≤ 1) ∧
    (∀ (s : Store) (uid pid t1 t2 : Nat),
        (like_post_local (like_post_local s uid pid t1).2 uid pid t2).1
          = !(like_post_local s uid pid t1).1) ∧
    (∀ (r : RelStore) (uid pid t1 t2 : Nat) (b1 : Bool) (r1 : RelStore),
        like_post_sql r uid pid t1 = some (b1, r1) →
        ∃ r2, like_post_sql r1 uid pid t2 = some (!b1, r2)) := by
  refine ⟨?_, ?_, toggle_alternates_local, toggle_alternates_sql⟩
  · intro now ops uid pid
    have h0 : LikeInv (seed_data_local initStore now).likes := by
      rw [seed_data_local_likes]
      exact likeInv_nil
    exact likeInv_run_local ops _ h0 uid pid
  · intro now s0 ops uid pid hseed
    have h0 : LikeInv s0.likes := by
      rw [seed_database_sql_likes initRelStore s0 now hseed]
      exact likeInv_nil
    exact likeInv_run_sql ops _ h0 uid pid

/-- C2: in both backends, `toggle_like` returns liked=false and removes
the pair's Like exactly when one was present, and returns liked=true and
appends one new Like of that pair exactly when none was present (the
relational route also cannot hit its 500 branch sequentially: the result
is always `some`). -/
theorem claim2_toggle_like_semantics :
    (∀ (s : Store) (uid pid now : Nat),
        (like_post_local s uid pid now).1 = !(like_exists s.likes uid pid) ∧
        like_exists ((like_post_local s uid pid now).2).likes uid pid
          = !(like_exists s.likes uid pid) ∧
        (like_exists s.likes uid pid = true →
          ((like_post_local s uid pid now).2).likes
            = s.likes.filter (fun l => !(l.user_id == uid && l.post_id == pid))) ∧
        (like_exists s.likes uid pid = false →
          ∃ nl : LikeRec, nl.user_id = uid ∧ nl.post_id = pid ∧
            ((like_post_local s uid pid now).2).likes = s.likes ++ [nl])) ∧
    (∀ (r : RelStore) (uid pid now : Nat),
        ∃ r' : RelStore,
          like_post_sql r uid pid now = some (!(like_exists r.likes uid pid), r') ∧
          like_exists r'.likes uid pid = !(like_exists r.likes uid pid) ∧
          (like_exists r.likes uid pid = true →
            r'.likes = r.likes.filter (fun l => !(l.user_id == uid && l.post_id == pid))) ∧
          (like_exists r.likes uid pid = false →
            ∃ nl : LikeRec, nl.user_id = uid ∧ nl.post_id = pid ∧
              r'.likes = r.likes ++ [nl])) :=
  ⟨like_post_local_spec, like_post_sql_spec⟩

theorem admin_delete_post_local_fields (s : Store) (pid : Nat) :
    (admin_delete_post_local s pid).posts = s.posts.filter (fun p => p.id != pid) ∧
    (admin_delete_post_local s pid).likes = s.likes.filter (fun l => l.post_id != pid) ∧
    (admin_delete_post_local s pid).comments = s.comments.filter (fun c => c.post_id != pid) ∧
    (admin_delete_post_local s pid).users = s.users :=
  ⟨rfl, rfl, rfl, rfl⟩

theorem admin_delete_post_sql_fields (s : RelStore) (pid : Nat) :
    (admin_delete_post_sql s pid).posts = s.posts.filter (fun p => p.id != pid) ∧
    (admin_delete_post_sql s pid).likes = s.likes.filter (fun l => l.post_id != pid) ∧
    (admin_delete_post_sql s pid).comments = s.comments.filter (fun c => c.post_id != pid) ∧
    (admin_delete_post_sql s pid).users = s.users :=
  ⟨rfl, rfl, rfl, rfl⟩

theorem post_detail_local_notFound (s : Store) (pid : Nat)
    (h : ∀ p ∈ s.posts, p.id ≠ pid) : post_detail_local s pid = .notFound := by
  unfold post_detail_local
  have hfind : s.posts.find? (fun p => p.id == pid) = none := by
    refine List.find?_eq_none.mpr ?_
    intro p hp
    simpa using h p hp
  rw [hfind]

theorem post_detail_sql_notFound (s : RelStore) (pid : Nat)
    (h : ∀ p ∈ s.posts, p.id ≠ pid) : post_detail_sql s pid = .notFound := by
  unfold post_detail_sql
  have hfil : s.posts.filter (fun p => p.id == pid) = [] := by
    refine List.filter_eq_nil_iff.mpr ?_
    intro p hp
    simpa using h p hp
  rw [hfil]
  rfl

/-- C3: in both backends, deleting a post (which the handler does by
first dropping its likes, then its comments, then the post row itself)
leaves a store in which `post_detail` of that id is the not-found
outcome and no Like and no Comment referencing the post remains. -/
theorem claim3_delete_post_cascade :
    (∀ (s : Store) (pid : Nat),
        post_detail_local (admin_delete_post_local s pid) pid = .notFound ∧
        (∀ l ∈ (admin_delete_post_local s pid).likes, l.post_id ≠ pid) ∧
        (∀ c ∈ (admin_delete_post_local s pid).comments, c.post_id ≠ pid) ∧
        (∀ p ∈ (admin_delete_post_local s pid).posts, p.id ≠ pid)) ∧
    (∀ (r : RelStore) (pid : Nat),
        post_detail_sql (admin_delete_post_sql r pid) pid = .notFound ∧
        (∀ l ∈ (admin_delete_post_sql r pid).likes, l.post_id ≠ pid) ∧
        (∀ c ∈ (admin_delete_post_sql r pid).comments, c.post_id ≠ pid) ∧
        (∀ p ∈ (admin_delete_post_sql r pid).posts, p.id ≠ pid)) := by
  constructor
  · intro s pid
    obtain ⟨hposts, hlikes, hcomments, _⟩ := admin_delete_post_local_fields s pid
    have hptag : ∀ p ∈ (admin_delete_post_local s pid).posts, p.id ≠ pid := by
      intro p hp
      rw [hposts] at hp
      simpa using (List.mem_filter.mp hp).2
    refine ⟨post_detail_local_notFound _ pid hptag, ?_, ?_, hptag⟩
    · intro l hl
      rw [hlikes] at hl
      simpa using (List.mem_filter.mp hl).2
    · intro c hc
      rw [hcomments] at hc
      simpa using (List.mem_filter.mp hc).2
  · intro r pid
    obtain ⟨hposts, hlikes, hcomments, _⟩ := admin_delete_post_sql_fields r pid
    have hptag : ∀ p ∈ (admin_delete_post_sql r pid).posts, p.id ≠ pid := by
      intro p hp
      rw [hposts] at hp
      simpa using (List.mem_filter.mp hp).2
    refine ⟨post_detail_sql_notFound _ pid hptag, ?_, ?_, hptag⟩
    · intro l hl
      rw [hlikes] at hl
      simpa using (List.mem_filter.mp hl).2
    · intro c hc
      rw [hcomments] at hc
      simpa using (List.mem_filter.mp hc).2

theorem register_local_ok (s : Store) (username email password : String) (now : Nat)
    (hn : s.users.any (fun u => u.username == username) = false)
    (he : s.users.any (fun u => u.email == email) = false) :
    register_local s username email password now =
      (.ok, { s with users := s.users ++
        [{ id := get_next_id (s.users.map (fun u => u.id)), username := username, email := email,
           password_hash := generate_password_hash password, is_admin := false,
           created_at := now }] }) := by
  unfold register_local
  rw [hn, he]
  rfl

theorem register_local_dup_username (s : Store) (username email password : String) (now : Nat)
    (hn : s.users.any (fun u => u.username == username) = true) :
    register_local s username email password now = (.duplicateUsername, s) := by
  unfold register_local
  rw [hn]
  rfl

theorem register_local_dup_email (s : Store) (username email password : String) (now : Nat)
    (hn : s.users.any (fun u => u.username == username) = false)
    (he : s.users.any (fun u => u.email == email) = true) :
    register_local s username email password now = (.duplicateEmail, s) := by
  unfold register_local
  rw [hn, he]
  rfl

theorem register_sql_ok (s : RelStore) (username email password : String) (now : Nat)
    (hn : s.users.any (fun u => u.username == username) = false)
    (he : s.users.any (fun u => u.email == email) = false) :
    register_sql s username email password now =
      (.ok, { s with
        users := s.users ++
          [{ id := s.user_seq, username := username, email := email,
             password_hash := generate_password_hash password, is_admin := false,
             created_at := now }],
        user_seq := s.user_seq + 1 }) := by
  unfold register_sql insert_user_sql
  rw [hn, he]
  rfl

theorem register_sql_dup_username (s : RelStore) (username email password : String) (now : Nat)
    (hn : s.users.any (fun u => u.username == username) = true) :
    register_sql s username email password now = (.duplicateUsername, s) := by
  unfold register_sql
  rw [hn]
  rfl

theorem register_sql_dup_email (s : RelStore) (username email password : String) (now : Nat)
    (hn : s.users.any (fun u => u.username == username) = false)
    (he : s.users.any (fun u => u.email == email) = true) :
    register_sql s username email password now = (.duplicateEmail, s) := by
  unfold register_sql
  rw [hn, he]
  rfl

/-- C4: in both backends, registering a fresh username and email
succeeds, appends exactly one user record with `is_admin=false`, and a
second registration attempt with the same username is rejected as a
duplicate leaving the user collection unchanged, so exactly one stored
user carries that username; and registering with an already-present
email always fails with a duplicate-key outcome leaving the store
unchanged. -/
theorem claim4_register_duplicate (s : Store) (r : RelStore)
    (username email password email2 password2 : String) (t1 t2 : Nat)
    (hn : ∀ u ∈ s.users, u.username ≠ username)
    (he : ∀ u ∈ s.users, u.email ≠ email)
    (hrn : ∀ u ∈ r.users, u.username ≠ username)
    (hre : ∀ u ∈ r.users, u.email ≠ email) :
    ((register_local s username email password t1).1 = .ok ∧
      (∃ nu : UserRec, nu.username = username ∧ nu.is_admin = false ∧
        ((register_local s username email password t1).2).users = s.users ++ [nu]) ∧
      register_local (register_local s username email password t1).2 username email2 password2 t2
        = (.duplicateUsername, (register_local s username email password t1).2) ∧
      (((register_local s username email password t1).2).users.filter
          (fun u => u.username == username)).length = 1) ∧
    ((register_sql r username email password t1).1 = .ok ∧
      (∃ nu : UserRec, nu.username = username ∧ nu.is_admin = false ∧
        ((register_sql r username email password t1).2).users = r.users ++ [nu]) ∧
      register_sql (register_sql r username email password t1).2 username email2 password2 t2
        = (.duplicateUsername, (register_sql r username email password t1).2) ∧
      (((register_sql r username email password t1).2).users.filter
          (fun u => u.username == username)).length = 1) ∧
    (∀ (s2 : Store) (un em pw : String) (t : Nat),
        (∃ u ∈ s2.users, u.email = em) →
        (register_local s2 un em pw t).1.isDuplicateKey = true ∧
          (register_local s2 un em pw t).2 = s2) ∧
    (∀ (r2 : RelStore) (un em pw : String) (t : Nat),
        (∃ u ∈ r2.users, u.email = em) →
        (register_sql r2 un em pw t).1.isDuplicateKey = true ∧
          (register_sql r2 un em pw t).2 = r2) := by
  have hany_n : s.users.any (fun u => u.username == username) = false :=
    List.any_eq_false.mpr (fun u hu => by simp [hn u hu])
  have hany_e : s.users.any (fun u => u.email == email) = false :=
    List.any_eq_false.mpr (fun u hu => by simp [he u hu])
  have hrany_n : r.users.any (fun u => u.username == username) = false :=
    List.any_eq_false.mpr (fun u hu => by simp [hrn u hu])
  have hrany_e : r.users.any (fun u => u.email == email) = false :=
    List.any_eq_false.mpr (fun u hu => by simp [hre u hu])
  have heq1 := register_local_ok s username email password t1 hany_n hany_e
  have heq2 := register_sql_ok r username email password t1 hrany_n hrany_e
  refine ⟨⟨?_, ?_, ?_, ?_⟩, ⟨?_, ?_, ?_, ?_⟩, ?_, ?_⟩
  · rw [heq1]
  · rw [heq1]
    exact ⟨_, rfl, rfl, rfl⟩
  · rw [heq1]
    refine register_local_dup_username _ username email2 password2 t2 ?_
    refine List.any_eq_true.mpr ⟨_, List.mem_append_right _ (List.mem_singleton.mpr rfl), ?_⟩
    simp
  · rw [heq1]
    have hnil : s.users.filter (fun u => u.username == username) = [] :=
      List.filter_eq_nil_iff.mpr (fun u hu => by simp [hn u hu])
    simp [List.filter_append, hnil]
  · rw [heq2]
  · rw [heq2]
    exact ⟨_, rfl, rfl, rfl⟩
  · rw [heq2]
    refine register_sql_dup_username _ username email2 password2 t2 ?_
    refine List.any_eq_true.mpr ⟨_, List.mem_append_right _ (List.mem_singleton.mpr rfl), ?_⟩
    simp
  · rw [heq2]
    have hnil : r.users.filter (fun u => u.username == username) = [] :=
      List.filter_eq_nil_iff.mpr (fun u hu => by simp [hrn u hu])
    simp [List.filter_append, hnil]
  · rintro s2 un em pw t ⟨u, hu, hue⟩
    cases hany : s2.users.any (fun x => x.username == un) with
    | true =>
        rw [register_local_dup_username s2 un em pw t hany]
        exact ⟨rfl, rfl⟩
    | false =>
        have hanye : s2.users.any (fun x => x.email == em) = true :=
          List.any_eq_true.mpr ⟨u, hu, by simp [hue]⟩
        rw [register_local_dup_email s2 un em pw t hany hanye]
        exact ⟨rfl, rfl⟩
  · rintro r2 un em pw t ⟨u, hu, hue⟩
    cases hany : r2.users.any (fun x => x.username == un) with
    | true =>
        rw [register_sql_dup_username r2 un em pw t hany]
        exact ⟨rfl, rfl⟩
    | false =>
        have hanye : r2.users.any (fun x => x.email == em) = true :=
          List.any_eq_true.mpr ⟨u, hu, by simp [hue]⟩
        rw [register_sql_dup_email r2 un em pw t hany hanye]
        exact ⟨rfl, rfl⟩

/-- Witness for C4 at the empty stores and the scenario of the spec:
registering alice succeeds. -/
theorem claim4_register_duplicate_witness :
    (register_local initStore "alice" "a@x.com" "pw1" 1).1 = RegisterResult.ok :=
  (claim4_register_duplicate initStore initRelStore "alice" "a@x.com" "pw1" "b@x.com" "pw2" 1 2
    (by simp [initStore]) (by simp [initStore])
    (by simp [initRelStore]) (by simp [initRelStore])).1.1

theorem sorted_views_desc (l : List PostView) :
    (List.insertionSort (fun a b => b.created_at ≤ a.created_at) l).Pairwise
      (fun a b => b.created_at ≤ a.created_at) := by
  haveI : IsTotal PostView (fun a b => b.created_at ≤ a.created_at) :=
    ⟨fun a b => Nat.le_total b.created_at a.created_at⟩
  haveI : IsTrans PostView (fun a b => b.created_at ≤ a.created_at) :=
    ⟨fun a b c hab hbc => Nat.le_trans hbc hab⟩
  exact List.sorted_insertionSort _ l

theorem sorted_comments_asc (l : List CommentView) :
    (List.insertionSort (fun a b => a.created_at ≤ b.created_at) l).Pairwise
      (fun a b => a.created_at ≤ b.created_at) := by
  haveI : IsTotal CommentView (fun a b => a.created_at ≤ b.created_at) :=
    ⟨fun a b => Nat.le_total a.created_at b.created_at⟩
  haveI : IsTrans CommentView (fun a b => a.created_at ≤ b.created_at) :=
    ⟨fun a b c hab hbc => Nat.le_trans hab hbc⟩
  exact List.sorted_insertionSort _ l

/-- C5: in both backends the `get_posts` sequence is sorted by
`created_at` descending: any later element's timestamp is at most any
earlier one's, so a post created at t2 > t1 appears before the t1 post. -/
theorem claim5_list_posts_sorted_desc :
    (∀ s : Store, (get_posts_local s).Pairwise (fun a b => b.created_at ≤ a.created_at)) ∧
    (∀ r : RelStore, (get_posts_sql r).Pairwise (fun a b => b.created_at ≤ a.created_at)) := by
  constructor
  · intro s
    unfold get_posts_local
    exact sorted_views_desc _
  · intro r
    unfold get_posts_sql
    exact sorted_views_desc _

theorem find?_user_id_unique (users : List UserRec)
    (hu : users.Pairwise (fun a b => a.id ≠ b.id))
    (u : UserRec) (hmem : u ∈ users) (k : Nat) (hk : u.id = k) :
    users.find? (fun x => x.id == k) = some u := by
  induction users with
  | nil => cases hmem
  | cons v rest ih =>
      have hpair := List.pairwise_cons.mp hu
      rcases List.mem_cons.mp hmem with rfl | hmem'
      · rw [List.find?_cons_of_pos _ (by simp [hk])]
      · have hne : v.id ≠ k := fun hvk => hpair.1 u hmem' (hvk.trans hk.symm)
        rw [List.find?_cons_of_neg _ (by simp [hne])]
        exact ih hpair.2 hmem'

theorem filter_user_id_unique (users : List UserRec)
    (hu : users.Pairwise (fun a b => a.id ≠ b.id))
    (u : UserRec) (hmem : u ∈ users) (k : Nat) (hk : u.id = k) :
    users.filter (fun x => x.id == k) = [u] := by
  induction users with
  | nil => cases hmem
  | cons v rest ih =>
      have hpair := List.pairwise_cons.mp hu
      rcases List.mem_cons.mp hmem with rfl | hmem'
      · rw [List.filter_cons_of_pos (by simp [hk])]
        have hnil : rest.filter (fun x => x.id == k) = [] := by
          refine List.filter_eq_nil_iff.mpr ?_
          intro a ha
          have h2 : a.id ≠ k := fun hak => hpair.1 a ha (hk.trans hak.symm)
          simp [h2]
        rw [hnil]
      · have hne : v.id ≠ k := fun hvk => hpair.1 u hmem' (hvk.trans hk.symm)
        rw [List.filter_cons_of_neg (by simp [hne])]
        exact ih hpair.2 hmem'

theorem post_detail_local_found_comments (s : Store) (pid : Nat) (post : DetailPost)
    (cs : List CommentView) (h : post_detail_local s pid = .found post cs) :
    cs = List.insertionSort (fun a b => a.created_at ≤ b.created_at)
      ((s.comments.filter (fun c => c.post_id == pid)).map (fun c =>
        { id := c.id, user_id := c.user_id, content := c.content, created_at := c.created_at,
          author_username :=
            match s.users.find? (fun u => u.id == c.user_id) with
            | some u => u.username
            | none => "Unknown"
          : CommentView })) := by
  unfold post_detail_local at h
  split at h
  · cases h
  · injection h with h1 h2
    exact h2.symm

theorem post_detail_sql_found_comments (r : RelStore) (pid : Nat) (post : DetailPost)
    (cs : List CommentView) (h : post_detail_sql r pid = .found post cs) :
    cs = List.insertionSort (fun a b => a.created_at ≤ b.created_at)
      ((r.comments.filter (fun c => c.post_id == pid)).flatMap (fun c =>
        (r.users.filter (fun u2 => u2.id == c.user_id)).map (fun u2 =>
          { id := c.id, user_id := c.user_id, content := c.content, created_at := c.created_at,
            author_username := u2.username : CommentView }))) := by
  unfold post_detail_sql at h
  split at h
  · cases h
  · injection h with h1 h2
    exact h2.symm

theorem flatMap_user_join_length (users : List UserRec)
    (hu : users.Pairwise (fun a b => a.id ≠ b.id)) :
    ∀ (cl : List CommentRec), (∀ c ∈ cl, ∃ u ∈ users, u.id = c.user_id) →
      (cl.flatMap (fun c => (users.filter (fun u2 => u2.id == c.user_id)).map (fun u2 =>
        { id := c.id, user_id := c.user_id, content := c.content, created_at := c.created_at,
          author_username := u2.username : CommentView }))).length = cl.length := by
  intro cl
  induction cl with
  | nil =>
      intro _
      rfl
  | cons c rest ih =>
      intro hfk
      obtain ⟨u, humem, huid⟩ := hfk c (List.mem_cons_self c rest)
      rw [List.flatMap_cons, List.length_append,
        filter_user_id_unique users hu u humem c.user_id huid,
        ih (fun a ha => hfk a (List.mem_cons_of_mem c ha))]
      simp [Nat.add_comm]

/-- C6: for an absent post id `post_detail` yields the not-found outcome
in both backends; for a found post its comment list is sorted by
`created_at` ascending, contains exactly the post's stored comments (for
the relational backend under the schema's referential integrity), and
each entry carries the fields of a stored comment of that post annotated
with its author's username. -/
theorem claim6_post_detail_comments (s : Store) (r : RelStore) (pid : Nat)
    (hu : s.users.Pairwise (fun a b => a.id ≠ b.id))
    (hru : r.users.Pairwise (fun a b => a.id ≠ b.id)) :
    ((∀ p ∈ s.posts, p.id ≠ pid) → post_detail_local s pid = .notFound) ∧
    (∀ (post : DetailPost) (cs : List CommentView),
        post_detail_local s pid = .found post cs →
        cs.Pairwise (fun a b => a.created_at ≤ b.created_at) ∧
        cs.length = (s.comments.filter (fun c => c.post_id == pid)).length ∧
        (∀ c ∈ cs, ∃ c0 ∈ s.comments, c0.post_id = pid ∧
          c.id = c0.id ∧ c.user_id = c0.user_id ∧ c.content = c0.content ∧
          c.created_at = c0.created_at ∧
          (∀ u ∈ s.users, u.id = c0.user_id → c.author_username = u.username))) ∧
    ((∀ p ∈ r.posts, p.id ≠ pid) → post_detail_sql r pid = .notFound) ∧
    (∀ (post : DetailPost) (cs : List CommentView),
        post_detail_sql r pid = .found post cs →
        cs.Pairwise (fun a b => a.created_at ≤ b.created_at) ∧
        ((∀ c ∈ r.comments, c.post_id = pid → ∃ u ∈ r.users, u.id = c.user_id) →
          cs.length = (r.comments.filter (fun c => c.post_id == pid)).length) ∧
        (∀ c ∈ cs, ∃ c0 ∈ r.comments, c0.post_id = pid ∧
          c.id = c0.id ∧ c.user_id = c0.user_id ∧ c.content = c0.content ∧
          c.created_at = c0.created_at ∧
          ∃ u ∈ r.users, u.id = c0.user_id ∧ c.author_username = u.username)) := by
  refine ⟨post_detail_local_notFound s pid, ?_, post_detail_sql_notFound r pid, ?_⟩
  · intro post cs h
    have hcs := post_detail_local_found_comments s pid post cs h
    subst hcs
    refine ⟨sorted_comments_asc _, ?_, ?_⟩
    · rw [(List.perm_insertionSort _ _).length_eq, List.length_map]
    · intro c hc
      have hc' := (List.perm_insertionSort _ _).mem_iff.mp hc
      obtain ⟨c0, hc0mem, hc0eq⟩ := List.mem_map.mp hc'
      have hc0 : c0 ∈ s.comments := (List.mem_filter.mp hc0mem).1
      have hc0pid : c0.post_id = pid := by simpa using (List.mem_filter.mp hc0mem).2
      subst hc0eq
      refine ⟨c0, hc0, hc0pid, rfl, rfl, rfl, rfl, ?_⟩
      intro u humem huid
      have hfind := find?_user_id_unique s.users hu u humem c0.user_id huid
      simp [hfind]
  · intro post cs h
    have hcs := post_detail_sql_found_comments r pid post cs h
    subst hcs
    refine ⟨sorted_comments_asc _, ?_, ?_⟩
    · intro hfk
      rw [(List.perm_insertionSort _ _).length_eq]
      refine flatMap_user_join_length r.users hru _ ?_
      intro c hcmem
      exact hfk c (List.mem_filter.mp hcmem).1 (by simpa using (List.mem_filter.mp hcmem).2)
    · intro c hc
      have hc' := (List.perm_insertionSort _ _).mem_iff.mp hc
      obtain ⟨c0, hc0mem, hcin⟩ := List.mem_flatMap.mp hc'
      obtain ⟨u2, hu2mem, hu2eq⟩ := List.mem_map.mp hcin
      have hc0 : c0 ∈ r.comments := (List.mem_filter.mp hc0mem).1
      have hc0pid : c0.post_id = pid := by simpa using (List.mem_filter.mp hc0mem).2
      have hu2r : u2 ∈ r.users := (List.mem_filter.mp hu2mem).1
      have hu2id : u2.id = c0.user_id := by simpa using (List.mem_filter.mp hu2mem).2
      subst hu2eq
      exact ⟨c0, hc0, hc0pid, rfl, rfl, rfl, rfl, u2, hu2r, hu2id, rfl⟩

/-- Witness for C6 at a concrete two-comment store: the absent id 99 is
not found, and the found comment list of post 1 is the two comments in
ascending order with the right usernames. -/
theorem claim6_post_detail_comments_witness :
    post_detail_local
      { users := [{ id := 1, username := "u1", email := "e1", password_hash := "h",
                    is_admin := false, created_at := 0 }],
        posts := [{ id := 1, user_id := 1, title := "t", content := "c",
                    images := none, videos := none, created_at := 3 }],
        likes := [],
        comments := [{ id := 1, user_id := 1, post_id := 1, content := "later", created_at := 9 },
                     { id := 2, user_id := 1, post_id := 1, content := "earlier", created_at := 4 }] }
      99 = .notFound :=
  (claim6_post_detail_comments
    { users := [{ id := 1, username := "u1", email := "e1", password_hash := "h",
                  is_admin := false, created_at := 0 }],
      posts := [{ id := 1, user_id := 1, title := "t", content := "c",
                  images := none, videos := none, created_at := 3 }],
      likes := [],
      comments := [{ id := 1, user_id := 1, post_id := 1, content := "later", created_at := 9 },
                   { id := 2, user_id := 1, post_id := 1, content := "earlier", created_at := 4 }] }
    initRelStore 99 (by decide) (by decide)).1 (by decide)

theorem login_local_invalid_of_unknown (s : Store) (n p : String)
    (h : ∀ u ∈ s.users, u.username ≠ n) : login_local s n p = .invalid := by
  unfold login_local
  have hfind : s.users.find? (fun u => u.username == n) = none :=
    List.find?_eq_none.mpr (fun u hu => by simp [h u hu])
  rw [hfind]

theorem login_local_invalid_of_wrong_password (s : Store) (n p : String)
    (h : ∀ u ∈ s.users, u.username = n → check_password_hash u.password_hash p = false) :
    login_local s n p = .invalid := by
  unfold login_local
  cases hfind : s.users.find? (fun u => u.username == n) with
  | none => rfl
  | some u =>
      have hmem := List.mem_of_find?_eq_some hfind
      have hn : u.username = n := by simpa using List.find?_some hfind
      simp [h u hmem hn]

theorem login_sql_invalid_of_unknown (s : RelStore) (n p : String)
    (h : ∀ u ∈ s.users, u.username ≠ n) : login_sql s n p = .invalid := by
  unfold login_sql
  have hfind : s.users.find? (fun u => u.username == n) = none :=
    List.find?_eq_none.mpr (fun u hu => by simp [h u hu])
  rw [hfind]

theorem login_sql_invalid_of_wrong_password (s : RelStore) (n p : String)
    (h : ∀ u ∈ s.users, u.username = n → check_password_hash u.password_hash p = false) :
    login_sql s n p = .invalid := by
  unfold login_sql
  cases hfind : s.users.find? (fun u => u.username == n) with
  | none => rfl
  | some u =>
      have hmem := List.mem_of_find?_eq_some hfind
      have hn : u.username = n := by simpa using List.find?_some hfind
      simp [h u hmem hn]

/-- C7: in both backends a login attempt yields either an identity or the
single `invalid` outcome, and the outcome of an unknown username run is
the very same value as the outcome of a known-username wrong-password
run: the two failures are indistinguishable to the caller. -/
theorem claim7_auth_indistinguishable (s1 s2 : Store) (r1 r2 : RelStore)
    (n1 p1 n2 p2 m1 q1 m2 q2 : String)
    (h1 : ∀ u ∈ s1.users, u.username ≠ n1)
    (hex : ∃ u ∈ s2.users, u.username = n2)
    (h2 : ∀ u ∈ s2.users, u.username = n2 → check_password_hash u.password_hash p2 = false)
    (hr1 : ∀ u ∈ r1.users, u.username ≠ m1)
    (hrex : ∃ u ∈ r2.users, u.username = m2)
    (hr2 : ∀ u ∈ r2.users, u.username = m2 → check_password_hash u.password_hash q2 = false) :
    login_local s1 n1 p1 = .invalid ∧
    login_local s2 n2 p2 = .invalid ∧
    login_local s1 n1 p1 = login_local s2 n2 p2 ∧
    login_sql r1 m1 q1 = .invalid ∧
    login_sql r2 m2 q2 = .invalid ∧
    login_sql r1 m1 q1 = login_sql r2 m2 q2 := by
  have a1 := login_local_invalid_of_unknown s1 n1 p1 h1
  have a2 := login_local_invalid_of_wrong_password s2 n2 p2 h2
  have b1 := login_sql_invalid_of_unknown r1 m1 q1 hr1
  have b2 := login_sql_invalid_of_wrong_password r2 m2 q2 hr2
  exact ⟨a1, a2, a1.trans a2.symm, b1, b2, b1.trans b2.symm⟩

/-- Witness for C7: the unknown-user run and the wrong-password run on
concrete stores return the same value. -/
theorem claim7_auth_indistinguishable_witness :
    login_local initStore "ghost" "x" =
      login_local
        { users := [{ id := 1, username := "alice", email := "a@x.com",
                      password_hash := generate_password_hash "pw1",
                      is_admin := false, created_at := 0 }],
          posts := [], likes := [], comments := [] }
        "alice" "wrong" :=
  (claim7_auth_indistinguishable initStore
    { users := [{ id := 1, username := "alice", email := "a@x.com",
                  password_hash := generate_password_hash "pw1",
                  is_admin := false, created_at := 0 }],
      posts := [], likes := [], comments := [] }
    initRelStore
    { users := [{ id := 1, username := "alice", email := "a@x.com",
                  password_hash := generate_password_hash "pw1",
                  is_admin := false, created_at := 0 }],
      posts := [], likes := [], comments := [],
      user_seq := 2, post_seq := 1, like_seq := 1, comment_seq := 1 }
    "ghost" "x" "alice" "wrong" "ghost" "x" "alice" "wrong"
    (by decide) (by decide) (by decide) (by decide) (by decide) (by decide)).2.2.1

/-- Counterexample to C8: an I/O or decode fault of the backing read does
not surface to the caller as any store-unavailable condition — the result
type of `load_json_file` can only carry records, the handler catches the
fault and returns the empty collection, identical to a successful read of
an empty store; likewise a connectivity fault inside `get_posts` of the
relational backend is returned as the empty post list, identical to an
empty database. -/
theorem claim8_fault_not_surfaced_cex :
    load_json_file (LoadResult.decodeFault : LoadResult LikeRec) = [] ∧
    load_json_file (LoadResult.ioFault : LoadResult LikeRec)
      = load_json_file (LoadResult.ok ([] : List LikeRec)) ∧
    get_posts_sql_run none = [] ∧
    get_posts_sql_run none = get_posts_sql_run (some initRelStore) := by
  exact ⟨rfl, rfl, rfl, by decide⟩

/-- C8 as amended: an I/O or decode fault in a flat-file read is caught
and returned as the empty collection, indistinguishable from an empty
store, and a store fault in the relational `get_posts` is returned as an
empty post list; no failed operation is re-issued. -/
theorem claim8_faults_swallowed (α : Type) (req : LoadResult α) (h : req.isFault = true) :
    load_json_file req = [] ∧
    load_json_file req = load_json_file (LoadResult.ok ([] : List α)) ∧
    get_posts_sql_run none = [] := by
  cases req with
  | ok v => cases h
  | missing => cases h
  | ioFault => exact ⟨rfl, rfl, rfl⟩
  | decodeFault => exact ⟨rfl, rfl, rfl⟩

/-- Witness for the amended C8 at a concrete faulting read. -/
theorem claim8_faults_swallowed_witness :
    load_json_file (LoadResult.ioFault : LoadResult LikeRec) = [] :=
  (claim8_faults_swallowed LikeRec LoadResult.ioFault rfl).1

/-- Counterexample to C9: on a store holding one post whose author User
record is absent the two backends disagree — the flat-file backend lists
the post with author "Unknown" and finds its detail page, while the
relational backend's inner join drops the post from the list and yields
the not-found outcome. -/
theorem claim9_backends_differ_cex :
    get_posts_local
        { users := [], posts := [{ id := 1, user_id := 7, title := "t", content := "c",
                                   images := none, videos := none, created_at := 5 }],
          likes := [], comments := [] }
      ≠ get_posts_sql
        { users := [], posts := [{ id := 1, user_id := 7, title := "t", content := "c",
                                   images := none, videos := none, created_at := 5 }],
          likes := [], comments := [],
          user_seq := 1, post_seq := 2, like_seq := 1, comment_seq := 1 } ∧
    post_detail_local
        { users := [], posts := [{ id := 1, user_id := 7, title := "t", content := "c",
                                   images := none, videos := none, created_at := 5 }],
          likes := [], comments := [] } 1
      ≠ post_detail_sql
        { users := [], posts := [{ id := 1, user_id := 7, title := "t", content := "c",
                                   images := none, videos := none, created_at := 5 }],
          likes := [], comments := [],
          user_seq := 1, post_seq := 2, like_seq := 1, comment_seq := 1 } 1 := by
  exact ⟨by decide, by decide⟩

theorem find?_reverse_user_id_unique (users : List UserRec)
    (hu : users.Pairwise (fun a b => a.id ≠ b.id))
    (u : UserRec) (hmem : u ∈ users) (k : Nat) (hk : u.id = k) :
    users.reverse.find? (fun x => x.id == k) = some u := by
  refine find?_user_id_unique users.reverse ?_ u (List.mem_reverse.mpr hmem) k hk
  exact List.pairwise_reverse.mpr (hu.imp fun h => Ne.symm h)

theorem filter_eq_cons_of_find? {α : Type} (p : α → Bool) (l : List α) (a : α)
    (h : l.find? p = some a) : ∃ l2, l.filter p = a :: l2 := by
  induction l with
  | nil => cases h
  | cons x xs ih =>
      cases hx : p x with
      | true =>
          rw [List.find?_cons_of_pos _ hx] at h
          injection h with h1
          subst h1
          exact ⟨xs.filter p, by rw [List.filter_cons_of_pos hx]⟩
      | false =>
          rw [List.find?_cons_of_neg _ (by simp [hx])] at h
          obtain ⟨l2, hl2⟩ := ih h
          exact ⟨l2, by rw [List.filter_cons_of_neg (by simp [hx]), hl2]⟩

theorem map_eq_join_posts (users : List UserRec) (likes : List LikeRec)
    (comments : List CommentRec)
    (hu : users.Pairwise (fun a b => a.id ≠ b.id)) :
    ∀ (posts : List PostRec), (∀ p ∈ posts, ∃ u ∈ users, u.id = p.user_id) →
      posts.map (fun p =>
        { id := p.id, user_id := p.user_id, title := p.title, content := p.content,
          images := p.images, videos := p.videos, created_at := p.created_at,
          author_username :=
            match users.reverse.find? (fun u => u.id == p.user_id) with
            | some u => u.username
            | none => "Unknown",
          like_count := (likes.filter (fun l => l.post_id == p.id)).length,
          comment_count := (comments.filter (fun c => c.post_id == p.id)).length
          : PostView })
      = posts.flatMap (fun p =>
        (users.filter (fun u => u.id == p.user_id)).map (fun u =>
          { id := p.id, user_id := p.user_id, title := p.title, content := p.content,
            images := p.images, videos := p.videos, created_at := p.created_at,
            author_username := u.username,
            like_count := (likes.filter (fun l => l.post_id == p.id)).length,
            comment_count := (comments.filter (fun c => c.post_id == p.id)).length
            : PostView })) := by
  intro posts
  induction posts with
  | nil =>
      intro _
      rfl
  | cons p rest ih =>
      intro hpfk
      obtain ⟨u, humem, huid⟩ := hpfk p (List.mem_cons_self p rest)
      rw [List.map_cons, List.flatMap_cons,
        filter_user_id_unique users hu u humem p.user_id huid,
        ih (fun a ha => hpfk a (List.mem_cons_of_mem p ha)),
        find?_reverse_user_id_unique users hu u humem p.user_id huid]
      rfl

theorem map_eq_join_comments (users : List UserRec)
    (hu : users.Pairwise (fun a b => a.id ≠ b.id)) :
    ∀ (cl : List CommentRec), (∀ c ∈ cl, ∃ u ∈ users, u.id = c.user_id) →
      cl.map (fun c =>
        { id := c.id, user_id := c.user_id, content := c.content, created_at := c.created_at,
          author_username :=
            match users.find? (fun u => u.id == c.user_id) with
            | some u => u.username
            | none => "Unknown"
          : CommentView })
      = cl.flatMap (fun c =>
        (users.filter (fun u2 => u2.id == c.user_id)).map (fun u2 =>
          { id := c.id, user_id := c.user_id, content := c.content, created_at := c.created_at,
            author_username := u2.username : CommentView })) := by
  intro cl
  induction cl with
  | nil =>
      intro _
      rfl
  | cons c rest ih =>
      intro hcfk
      obtain ⟨u, humem, huid⟩ := hcfk c (List.mem_cons_self c rest)
      rw [List.map_cons, List.flatMap_cons,
        filter_user_id_unique users hu u humem c.user_id huid,
        ih (fun a ha => hcfk a (List.mem_cons_of_mem c ha)),
        find?_user_id_unique users hu u humem c.user_id huid]
      rfl

theorem post_detail_local_found_eq (users : List UserRec) (posts : List PostRec)
    (likes : List LikeRec) (comments : List CommentRec) (pid : Nat) (p0 : PostRec)
    (hfind : posts.find? (fun p => p.id == pid) = some p0) :
    post_detail_local { users := users, posts := posts, likes := likes, comments := comments } pid
      = .found
        { id := p0.id, user_id := p0.user_id, title := p0.title, content := p0.content,
          images := p0.images, videos := p0.videos, created_at := p0.created_at,
          author_username :=
            match users.find? (fun u => u.id == p0.user_id) with
            | some u => u.username
            | none => "Unknown",
          author_created_at :=
            match users.find? (fun u => u.id == p0.user_id) with
            | some u => some u.created_at
            | none => none,
          like_count := (likes.filter (fun l => l.post_id == pid)).length,
          comment_count := (comments.filter (fun c => c.post_id == pid)).length }
        (List.insertionSort (fun a b => a.created_at ≤ b.created_at)
          ((comments.filter (fun c => c.post_id == pid)).map (fun c =>
            { id := c.id, user_id := c.user_id, content := c.content, created_at := c.created_at,
              author_username :=
                match users.find? (fun u => u.id == c.user_id) with
                | some u => u.username
                | none => "Unknown"
              : CommentView }))) := by
  unfold post_detail_local
  dsimp only
  rw [hfind]

theorem post_detail_sql_found_eq (users : List UserRec) (posts : List PostRec)
    (likes : List LikeRec) (comments : List CommentRec) (useq pseq lseq cseq : Nat)
    (pid : Nat) (p0 : PostRec) (u0 : UserRec)
    (hhead : ((posts.filter (fun p => p.id == pid)).flatMap (fun p =>
        (users.filter (fun u => u.id == p.user_id)).map (fun u => (p, u)))).head?
      = some (p0, u0)) :
    post_detail_sql
        { users := users, posts := posts, likes := likes, comments := comments,
          user_seq := useq, post_seq := pseq, like_seq := lseq, comment_seq := cseq } pid
      = .found
        { id := p0.id, user_id := p0.user_id, title := p0.title, content := p0.content,
          images := p0.images, videos := p0.videos, created_at := p0.created_at,
          author_username := u0.username,
          author_created_at := some u0.created_at,
          like_count := (likes.filter (fun l => l.post_id == p0.id)).length,
          comment_count := (comments.filter (fun c => c.post_id == p0.id)).length }
        (List.insertionSort (fun a b => a.created_at ≤ b.created_at)
          ((comments.filter (fun c => c.post_id == pid)).flatMap (fun c =>
            (users.filter (fun u2 => u2.id == c.user_id)).map (fun u2 =>
              { id := c.id, user_id := c.user_id, content := c.content,
                created_at := c.created_at, author_username := u2.username
                : CommentView })))) := by
  unfold post_detail_sql
  dsimp only
  rw [hhead]

/-- C9 as amended: the two backends agree on every store content that
satisfies the relational schema's integrity constraints — user ids
unique, every post's and every comment's author present — and whose
timestamps are pairwise distinct (SQL fixes no order among equal
`ORDER BY` keys): `get_posts` returns the same PostView sequence and
`post_detail` the same result for every id.  (Without the author-present
condition the backends differ: see the counterexample.) -/
theorem claim9_backends_equivalent_wf
    (users : List UserRec) (posts : List PostRec) (likes : List LikeRec)
    (comments : List CommentRec) (useq pseq lseq cseq : Nat)
    (hu : users.Pairwise (fun a b => a.id ≠ b.id))
    (hpfk : ∀ p ∈ posts, ∃ u ∈ users, u.id = p.user_id)
    (hcfk : ∀ c ∈ comments, ∃ u ∈ users, u.id = c.user_id)
    (hpt : posts.Pairwise (fun a b => a.created_at ≠ b.created_at))
    (hct : comments.Pairwise (fun a b => a.created_at ≠ b.created_at)) :
    get_posts_local { users := users, posts := posts, likes := likes, comments := comments }
      = get_posts_sql
          { users := users, posts := posts, likes := likes, comments := comments,
            user_seq := useq, post_seq := pseq, like_seq := lseq, comment_seq := cseq } ∧
    ∀ pid : Nat,
      post_detail_local { users := users, posts := posts, likes := likes, comments := comments } pid
        = post_detail_sql
            { users := users, posts := posts, likes := likes, comments := comments,
              user_seq := useq, post_seq := pseq, like_seq := lseq, comment_seq := cseq } pid := by
  constructor
  · unfold get_posts_local get_posts_sql
    dsimp only
    exact congrArg _ (map_eq_join_posts users likes comments hu posts hpfk)
  · intro pid
    cases hfind : posts.find? (fun p => p.id == pid) with
    | none =>
        have hnone : ∀ p ∈ posts, p.id ≠ pid := by
          intro p hp
          simpa using List.find?_eq_none.mp hfind p hp
        rw [post_detail_local_notFound _ pid hnone, post_detail_sql_notFound _ pid hnone]
    | some p0 =>
        have hp0mem : p0 ∈ posts := List.mem_of_find?_eq_some hfind
        have hpid : p0.id = pid := by simpa using List.find?_some hfind
        obtain ⟨u0, hu0mem, hu0id⟩ := hpfk p0 hp0mem
        have hfindfw : users.find? (fun u => u.id == p0.user_id) = some u0 :=
          find?_user_id_unique users hu u0 hu0mem p0.user_id hu0id
        obtain ⟨l2, hfil⟩ := filter_eq_cons_of_find? (fun p => p.id == pid) posts p0 hfind
        have hrows : ((posts.filter (fun p => p.id == pid)).flatMap (fun p =>
            (users.filter (fun u => u.id == p.user_id)).map (fun u => (p, u)))).head?
            = some (p0, u0) := by
          rw [hfil, List.flatMap_cons,
            filter_user_id_unique users hu u0 hu0mem p0.user_id hu0id]
          rfl
        rw [post_detail_local_found_eq users posts likes comments pid p0 hfind,
          post_detail_sql_found_eq users posts likes comments useq pseq lseq cseq pid p0 u0 hrows,
          hfindfw, hpid,
          map_eq_join_comments users hu (comments.filter (fun c => c.post_id == pid))
            (fun c hc => hcfk c (List.mem_filter.mp hc).1)]

/-- Witness for the amended C9 at a concrete well-formed store: one user,
one post, one comment — both backends return the same views. -/
theorem claim9_backends_equivalent_wf_witness :
    get_posts_local
        { users := [{ id := 1, username := "u1", email := "e1", password_hash := "h",
                      is_admin := false, created_at := 0 }],
          posts := [{ id := 1, user_id := 1, title := "t", content := "c",
                      images := none, videos := none, created_at := 3 }],
          likes := [],
          comments := [{ id := 1, user_id := 1, post_id := 1, content := "hi",
                         created_at := 4 }] }
      = get_posts_sql
        { users := [{ id := 1, username := "u1", email := "e1", password_hash := "h",
                      is_admin := false, created_at := 0 }],
          posts := [{ id := 1, user_id := 1, title := "t", content := "c",
                      images := none, videos := none, created_at := 3 }],
          likes := [],
          comments := [{ id := 1, user_id := 1, post_id := 1, content := "hi",
                         created_at := 4 }],
          user_seq := 2, post_seq := 2, like_seq := 1, comment_seq := 2 } :=
  (claim9_backends_equivalent_wf
    [{ id := 1, username := "u1", email := "e1", password_hash := "h",
       is_admin := false, created_at := 0 }]
    [{ id := 1, user_id := 1, title := "t", content := "c",
       images := none, videos := none, created_at := 3 }]
    []
    [{ id := 1, user_id := 1, post_id := 1, content := "hi", created_at := 4 }]
    2 2 1 2
    (by decide) (by decide) (by decide) (by decide) (by decide)).1

theorem users_applyOp_local (s : Store) (op : Op) :
    ∃ new : List UserRec, (applyOp_local s op).users = s.users ++ new ∧
      ∀ u ∈ new, u.is_admin = false := by
  cases op with
  | register username email password now =>
      unfold applyOp_local register_local
      dsimp only
      split
      · exact ⟨[], by simp, by simp⟩
      · split
        · exact ⟨[], by simp, by simp⟩
        · refine ⟨[_], rfl, ?_⟩
          intro u hu
          rw [List.mem_singleton] at hu
          subst hu
          rfl
  | login username password =>
      exact ⟨[], by simp [applyOp_local], by simp⟩
  | create_post uid title content images videos now =>
      exact ⟨[], by simp [applyOp_local, create_post_local], by simp⟩
  | toggle_like uid pid now =>
      refine ⟨[], ?_, by simp⟩
      cases hfind : s.likes.find? (fun l => l.user_id == uid && l.post_id == pid) with
      | some x =>
          simp [applyOp_local, like_post_local_likes_some s uid pid now hfind]
      | none =>
          simp [applyOp_local, like_post_local_likes_none s uid pid now hfind]
  | add_comment uid pid content now =>
      exact ⟨[], by simp [applyOp_local, add_comment_local], by simp⟩
  | delete_post pid =>
      exact ⟨[], by simp [applyOp_local, admin_delete_post_local], by simp⟩

theorem users_applyOp_sql (s : RelStore) (op : Op) :
    ∃ new : List UserRec, (applyOp_sql s op).users = s.users ++ new ∧
      ∀ u ∈ new, u.is_admin = false := by
  cases op with
  | register username email password now =>
      unfold applyOp_sql register_sql insert_user_sql
      dsimp only
      split
      · exact ⟨[], by simp, by simp⟩
      · split
        · exact ⟨[], by simp, by simp⟩
        · split
          · rename_i s' heq
            cases heq
            refine ⟨[_], rfl, ?_⟩
            intro u hu
            rw [List.mem_singleton] at hu
            subst hu
            rfl
          · exact ⟨[], by simp, by simp⟩
  | login username password =>
      exact ⟨[], by simp [applyOp_sql], by simp⟩
  | create_post uid title content images videos now =>
      exact ⟨[], by simp [applyOp_sql, create_post_sql], by simp⟩
  | toggle_like uid pid now =>
      refine ⟨[], ?_, by simp⟩
      cases hfind : s.likes.find? (fun l => l.user_id == uid && l.post_id == pid) with
      | some x =>
          simp [applyOp_sql, like_post_sql_likes_some s uid pid now hfind]
      | none =>
          simp [applyOp_sql, like_post_sql_likes_none s uid pid now hfind]
  | add_comment uid pid content now =>
      exact ⟨[], by simp [applyOp_sql, add_comment_sql], by simp⟩
  | delete_post pid =>
      exact ⟨[], by simp [applyOp_sql, admin_delete_post_sql], by simp⟩

theorem users_run_local (ops : List Op) :
    ∀ s : Store, ∃ new : List UserRec,
      (run_local s ops).users = s.users ++ new ∧ ∀ u ∈ new, u.is_admin = false := by
  induction ops with
  | nil =>
      intro s
      exact ⟨[], by simp [run_local], by simp⟩
  | cons op rest ih =>
      intro s
      obtain ⟨n1, h1, h1f⟩ := users_applyOp_local s op
      obtain ⟨n2, h2, h2f⟩ := ih (applyOp_local s op)
      refine ⟨n1 ++ n2, ?_, ?_⟩
      · rw [run_local, List.foldl_cons]
        show (run_local (applyOp_local s op) rest).users = s.users ++ (n1 ++ n2)
        rw [h2, h1, List.append_assoc]
      · intro u hu
        rcases List.mem_append.mp hu with h | h
        · exact h1f u h
        · exact h2f u h

theorem users_run_sql (ops : List Op) :
    ∀ s : RelStore, ∃ new : List UserRec,
      (run_sql s ops).users = s.users ++ new ∧ ∀ u ∈ new, u.is_admin = false := by
  induction ops with
  | nil =>
      intro s
      exact ⟨[], by simp [run_sql], by simp⟩
  | cons op rest ih =>
      intro s
      obtain ⟨n1, h1, h1f⟩ := users_applyOp_sql s op
      obtain ⟨n2, h2, h2f⟩ := ih (applyOp_sql s op)
      refine ⟨n1 ++ n2, ?_, ?_⟩
      · rw [run_sql, List.foldl_cons]
        show (run_sql (applyOp_sql s op) rest).users = s.users ++ (n1 ++ n2)
        rw [h2, h1, List.append_assoc]
      · intro u hu
        rcases List.mem_append.mp hu with h | h
        · exact h1f u h
        · exact h2f u h

theorem seed_data_local_users (s : Store) (now : Nat) :
    ∃ new : List UserRec, (seed_data_local s now).users = s.users ++ new ∧
      ∀ u ∈ new, u.username = "admin" ∧ u.is_admin = true := by
  unfold seed_data_local
  split
  · exact ⟨[], by simp, by simp⟩
  · refine ⟨[_], rfl, ?_⟩
    intro u hu
    rw [List.mem_singleton] at hu
    subst hu
    exact ⟨rfl, rfl⟩

theorem seed_database_sql_users (r r' : RelStore) (now : Nat)
    (h : seed_database_sql r now = some r') :
    ∃ new : List UserRec, r'.users = r.users ++ new ∧
      ∀ u ∈ new, u.username = "admin" ∧ u.is_admin = true := by
  unfold seed_database_sql insert_user_sql at h
  split at h
  · cases h
    exact ⟨[], by simp, by simp⟩
  · split at h
    · cases h
    · cases h
      refine ⟨[_], rfl, ?_⟩
      intro u hu
      rw [List.mem_singleton] at hu
      subst hu
      exact ⟨rfl, rfl⟩

/-- C10: in both backends no sequence of exposed operations (register,
authenticate, create_post, toggle_like, add_comment, delete_post) mutates
or deletes any stored User record — the user collection is only ever
extended — and every user an exposed operation creates has
is_admin=false; only the startup seed appends a user with is_admin=true
(the "admin" account). -/
theorem claim10_is_admin_frame :
    (∀ (s : Store) (ops : List Op),
        ∃ new : List UserRec, (run_local s ops).users = s.users ++ new ∧
          ∀ u ∈ new, u.is_admin = false) ∧
    (∀ (r : RelStore) (ops : List Op),
        ∃ new : List UserRec, (run_sql r ops).users = r.users ++ new ∧
          ∀ u ∈ new, u.is_admin = false) ∧
    (∀ (s : Store) (now : Nat),
        ∃ new : List UserRec, (seed_data_local s now).users = s.users ++ new ∧
          ∀ u ∈ new, u.username = "admin" ∧ u.is_admin = true) ∧
    (∀ (r r' : RelStore) (now : Nat), seed_database_sql r now = some r' →
        ∃ new : List UserRec, r'.users = r.users ++ new ∧
          ∀ u ∈ new, u.username = "admin" ∧ u.is_admin = true) :=
  ⟨fun s ops => users_run_local ops s, fun r ops => users_run_sql ops r,
    seed_data_local_users, seed_database_sql_users⟩
